import Mathlib

/-!
Shallow embedding of the Streamlit NLP demo app (src/untitled10.py).

The app has two parts:
* a memoized pipeline loader `load_pipelines` wrapped in `st.cache_resource`
  (modeled with an explicit cache state of type `Cache`);
* five task panels, each of which reads a text widget and optional sliders,
  and on a button press forwards the text and parameters to the corresponding
  registry handle, then renders the result.

External inference handles (the transformers `pipeline` objects) are modeled
as function parameters returning `Except Err`; exceptions raised by handle
construction or invocation are the `Except.error` case.  A script run is
modeled as a function producing the ordered list of observable effects
(`Eff`): rendered UI elements, invocation records (`Eff.call`), the
`st.stop` effect, and uncaught exceptions (which the host framework renders
as an error on the page and which end the run).

Numeric slider values are modeled over `Int`; the widget guarantees the
returned value lies within the slider bounds, which is modeled by the clamp
`sliderVal`.  Confidence scores are modeled over `ℚ`, and the Python
format specifier for four decimal places is modeled by `format4`
(round half up; the claims exercise no tie).
-/

/-- Exceptions are carried as their message string. -/
abbrev Err := String

/-- One element of a text-generation pipeline result list. -/
structure GenOut where
  generated_text : String
deriving DecidableEq, Repr

/-- One element of a summarization pipeline result list. -/
structure SumOut where
  summary_text : String
deriving DecidableEq, Repr

/-- One element of a sentiment-analysis pipeline result list. -/
structure SentOut where
  label : String
  score : ℚ
deriving DecidableEq, Repr

/-- One aggregated entity record of an NER pipeline result. -/
structure NEREntity where
  word : String
  entity_group : String
  score : ℚ
deriving DecidableEq, Repr

/-- The pipeline registry: the dict built by `load_pipelines`, one invokable
handle per task key.  Each handle takes the arguments the app passes at its
call site and may fail. -/
structure Registry where
  text_gen : String → Int → Int → Except Err (List GenOut)
  summarizer : String → Int → Int → Except Err (List SumOut)
  sentiment : String → Except Err (List SentOut)
  ner : String → Except Err (List NEREntity)
  grammar : String → Except Err (List GenOut)

/-- The five `pipeline(...)` constructor calls of `load_pipelines`, one per
task key, each either producing a handle or raising. -/
structure Builders where
  text_gen : Except Err (String → Int → Int → Except Err (List GenOut))
  summarizer : Except Err (String → Int → Int → Except Err (List SumOut))
  sentiment : Except Err (String → Except Err (List SentOut))
  ner : Except Err (String → Except Err (List NEREntity))
  grammar : Except Err (String → Except Err (List GenOut))

/-- The dict literal of `load_pipelines`: the five constructors are evaluated
in source order and the first exception aborts the whole construction. -/
def build_pipelines (b : Builders) : Except Err Registry :=
  match b.text_gen with
  | .error e => .error e
  | .ok tg =>
    match b.summarizer with
    | .error e => .error e
    | .ok sm =>
      match b.sentiment with
      | .error e => .error e
      | .ok se =>
        match b.ner with
        | .error e => .error e
        | .ok nr =>
          match b.grammar with
          | .error e => .error e
          | .ok gr => .ok ⟨tg, sm, se, nr, gr⟩

/-- The body of `load_pipelines`: the `try`/`except` returns the dict on
success and `None` after catching any construction exception. -/
def load_pipelines (b : Builders) : Option Registry :=
  (build_pipelines b).toOption

/-- An invocation record: one call of a registry handle, with the exact
arguments passed at the call site. -/
inductive CallRec where
  | textGen (text : String) (max_length num_return_sequences : Int)
  | summarize (text : String) (max_length min_length : Int)
  | sentiment (text : String)
  | ner (text : String)
  | grammar (text : String)
deriving DecidableEq, Repr

/-- One row of the NER result table passed to `st.dataframe`. -/
structure NERRow where
  entity : String
  label : String
  score : String
deriving DecidableEq, Repr

/-- Observable effects of one script run, in order of occurrence. -/
inductive Eff where
  | spinner (msg : String)
  | title (msg : String)
  | markdown (msg : String)
  | sidebarInfo (msg : String)
  | header (msg : String)
  | subheader (msg : String)
  | stSuccess (msg : String)
  | stError (msg : String)
  | stCode (msg : String)
  | stWrite (msg : String)
  | dataframe (rows : List NERRow)
  | call (c : CallRec)
  | stopped
  | uncaught (msg : String)
deriving DecidableEq, Repr

/-- The invocation records contained in an effect list, in order. -/
def callsOf (l : List Eff) : List CallRec :=
  l.filterMap fun e =>
    match e with
    | .call c => some c
    | _ => none

/-- A Streamlit slider with bounds `lo` and `hi` always yields a value inside
the bounds; `v` is the position the user chose. -/
def sliderVal (lo hi v : Int) : Int := max lo (min hi v)

/-- Left-pads a digit string with zeros to four characters. -/
def pad4 (s : String) : String :=
  String.join (List.replicate (4 - s.length) "0") ++ s

/-- The Python fixed-point format with four decimal places, on `ℚ`
(for the nonnegative scores the app formats): the scaled value
`q * 10000` is rounded half up, written here as the floor of
`q * 10000 + 1 / 2` computed on the numerator and denominator. -/
def format4 (q : ℚ) : String :=
  let n : Int := Int.ediv (2 * q.num * 10000 + q.den) (2 * q.den)
  toString (n.toNat / 10000) ++ "." ++ pad4 (toString (n.toNat % 10000))

/-- The five entries of the sidebar task selector. -/
inductive TaskId where
  | textGen
  | summarization
  | sentiment
  | ner
  | grammar
deriving DecidableEq, Repr

/-- The user-visible widget state of one script run: the selected task, the
current value of the selected panel text area, the slider positions and
whether the panel button was pressed. -/
structure Session where
  task : TaskId
  text : String
  genMaxLen : Int
  sumMaxLen : Int
  sumMinLen : Int
  pressed : Bool
deriving DecidableEq, Repr

/-- The Text Generation panel (lines 60-69 of the source). -/
def textGenPanel (r : Registry) (s : Session) : List Eff :=
  [Eff.header "📝 Text Generation (GPT-2)"] ++
  (let input_text := s.text
   let max_len := sliderVal 50 500 s.genMaxLen
   if s.pressed then
     [Eff.spinner "Generating text...",
      Eff.call (.textGen input_text max_len 1)] ++
     (match r.text_gen input_text max_len 1 with
      | .error e => [Eff.uncaught e]
      | .ok result =>
        match result.head? with
        | none => [Eff.uncaught "IndexError: list index out of range"]
        | some r0 => [Eff.stSuccess "Done!", Eff.stCode r0.generated_text])
   else [])

/-- The Summarization panel (lines 75-95 of the source). -/
def summarizationPanel (r : Registry) (s : Session) : List Eff :=
  [Eff.header "📑 Text Summarization (BART-Large-CNN)"] ++
  (let max_len := sliderVal 20 200 s.sumMaxLen
   let min_len := sliderVal 10 (max_len - 10) s.sumMinLen
   if s.pressed then
     [Eff.spinner "Summarizing...",
      Eff.call (.summarize s.text max_len min_len)] ++
     (match r.summarizer s.text max_len min_len with
      | .error e => [Eff.uncaught e]
      | .ok summary =>
        match summary.head? with
        | none => [Eff.uncaught "IndexError: list index out of range"]
        | some s0 => [Eff.stSuccess "Summary Ready!", Eff.stWrite s0.summary_text])
   else [])

/-- The Sentiment Analysis panel (lines 101-113 of the source). -/
def sentimentPanel (r : Registry) (s : Session) : List Eff :=
  [Eff.header "😊 Sentiment Analysis"] ++
  (if s.pressed then
    [Eff.spinner "Analyzing sentiment...",
     Eff.call (.sentiment s.text)] ++
    (match r.sentiment s.text with
     | .error e => [Eff.uncaught e]
     | .ok res =>
       match res.head? with
       | none => [Eff.uncaught "IndexError: list index out of range"]
       | some r0 =>
         [Eff.subheader "Result:"] ++
         (if r0.label = "POSITIVE" then
            [Eff.stSuccess ("POSITIVE (Confidence: " ++ format4 r0.score ++ ")")]
          else
            [Eff.stError ("NEGATIVE (Confidence: " ++ format4 r0.score ++ ")")]))
   else [])

/-- The NER panel (lines 119-135 of the source). -/
def nerPanel (r : Registry) (s : Session) : List Eff :=
  [Eff.header "📍 Named Entity Recognition"] ++
  (if s.pressed then
    [Eff.spinner "Detecting entities...",
     Eff.call (.ner s.text)] ++
    (match r.ner s.text with
     | .error e => [Eff.uncaught e]
     | .ok entities =>
       [Eff.stSuccess "Entities Identified:",
        Eff.dataframe (entities.map fun ent =>
          { entity := ent.word, label := ent.entity_group, score := format4 ent.score })])
   else [])

/-- The Grammar Correction panel (lines 141-155 of the source). -/
def grammarPanel (r : Registry) (s : Session) : List Eff :=
  [Eff.header "✍ Grammar Correction"] ++
  (if s.pressed then
    [Eff.spinner "Fixing grammar...",
     Eff.call (.grammar s.text)] ++
    (match r.grammar s.text with
     | .error e => [Eff.uncaught e]
     | .ok res =>
       match res.head? with
       | none => [Eff.uncaught "IndexError: list index out of range"]
       | some r0 =>
         [Eff.stSuccess "Correction Complete!",
          Eff.markdown ("**Original:** " ++ s.text),
          Eff.markdown ("**Corrected:** " ++ r0.generated_text)])
   else [])

/-- Dispatch of the `if task == ... elif ...` chain over the selected task. -/
def panelFor (r : Registry) (s : Session) : List Eff :=
  match s.task with
  | .textGen => textGenPanel r s
  | .summarization => summarizationPanel r s
  | .sentiment => sentimentPanel r s
  | .ner => nerPanel r s
  | .grammar => grammarPanel r s

/-- The body of `load_pipelines` together with its effects: the spinner, and
the `st.error` banner emitted by the `except` branch. -/
def load_pipelines_eff (b : Builders) : Option Registry × List Eff :=
  match build_pipelines b with
  | .ok r => (some r, [Eff.spinner "Loading NLP models... This might take a moment!"])
  | .error e =>
    (none,
     [Eff.spinner "Loading NLP models... This might take a moment!",
      Eff.stError ("Error loading models: " ++ e ++
        ". Please ensure PyTorch and transformers are installed.")])

/-- The process-wide `st.cache_resource` state for `load_pipelines`:
`none` before the first call, `some v` once a returned value `v`
(possibly the cached `None` of a failed construction) has been stored. -/
abbrev Cache := Option (Option Registry)

/-- One call of the cached `load_pipelines`: a cache hit returns the stored
value and runs nothing; a miss runs the body and stores its result.  The
`Bool` component records whether construction work ran during this call. -/
def cachedLoad (b : Builders) (c : Cache) : Option Registry × Cache × Bool × List Eff :=
  match c with
  | some r => (r, some r, false, [])
  | none =>
    let (r, effs) := load_pipelines_eff b
    (r, some r, true, effs)

/-- Result of one script run. -/
structure RunOut where
  effs : List Eff
  cache : Cache
  ran : Bool

/-- The static page chrome rendered on every run (title, description,
sidebar note), before the registry guard. -/
def chrome : List Eff :=
  [Eff.title "🧠 NLP Tasks with Hugging Face Transformers",
   Eff.markdown "Perform Text Generation, Summarization, Sentiment Analysis, NER and Grammar Correction.",
   Eff.sidebarInfo "✔ Models load only once using @st.cache_resource"]

/-- One top-to-bottom script run: load the (cached) registry, render the
chrome, then either `st.stop` when the registry is unavailable or render the
selected task panel. -/
def runScript (b : Builders) (c : Cache) (s : Session) : RunOut :=
  match cachedLoad b c with
  | (pipes, c', ran, loadEffs) =>
    match pipes with
    | none => ⟨loadEffs ++ chrome ++ [Eff.stopped], c', ran⟩
    | some r => ⟨loadEffs ++ chrome ++ panelFor r s, c', ran⟩

/-- Result of a sequence of script runs within one process. -/
structure RunsOut where
  outs : List (List Eff)
  cache : Cache
  buildRuns : Nat

/-- A sequence of script runs within one process: the cache persists from
run to run; `buildRuns` counts how many runs executed construction work. -/
def runScripts (b : Builders) (c : Cache) : List Session → RunsOut
  | [] => ⟨[], c, 0⟩
  | s :: ss =>
    let o := runScript b c s
    let rest := runScripts b o.cache ss
    ⟨o.effs :: rest.outs, rest.cache, (if o.ran then 1 else 0) + rest.buildRuns⟩

/-- `n` successive calls of the cached `load_pipelines` within one process:
the list of returned registries, the final cache, and how many of the calls
ran construction work. -/
def loadResults (b : Builders) : Nat → Cache → List (Option Registry) × Cache × Nat
  | 0, c => ([], c, 0)
  | n + 1, c =>
    match cachedLoad b c with
    | (r, c', ran, _) =>
      match loadResults b n c' with
      | (rs, cf, k) => (r :: rs, cf, (if ran then 1 else 0) + k)

/-- The exact arguments each panel passes to its registry handle, as a
function of the widget state: the text and parameters as the user chose
them. -/
def callOf (s : Session) : CallRec :=
  match s.task with
  | .textGen => .textGen s.text s.genMaxLen 1
  | .summarization => .summarize s.text s.sumMaxLen s.sumMinLen
  | .sentiment => .sentiment s.text
  | .ner => .ner s.text
  | .grammar => .grammar s.text

/-- The chosen slider positions lie inside the bounds the selected panel
declares for its sliders (which the widget guarantees). -/
def paramsInRange (s : Session) : Prop :=
  match s.task with
  | .textGen => 50 ≤ s.genMaxLen ∧ s.genMaxLen ≤ 500
  | .summarization => 20 ≤ s.sumMaxLen ∧ s.sumMaxLen ≤ 200 ∧
      10 ≤ s.sumMinLen ∧ s.sumMinLen ≤ s.sumMaxLen - 10
  | _ => True

/-- Some handle construction of `load_pipelines` raises. -/
def buildFails (b : Builders) : Prop :=
  (∃ e, b.text_gen = .error e) ∨ (∃ e, b.summarizer = .error e) ∨
  (∃ e, b.sentiment = .error e) ∨ (∃ e, b.ner = .error e) ∨
  (∃ e, b.grammar = .error e)

/-- The handle invocation the selected panel performs raises the exception
`m` (at the exact arguments the panel passes). -/
def invokeErrors (r : Registry) (s : Session) (m : Err) : Prop :=
  match s.task with
  | .textGen => r.text_gen s.text (sliderVal 50 500 s.genMaxLen) 1 = .error m
  | .summarization =>
      r.summarizer s.text (sliderVal 20 200 s.sumMaxLen)
        (sliderVal 10 (sliderVal 20 200 s.sumMaxLen - 10) s.sumMinLen) = .error m
  | .sentiment => r.sentiment s.text = .error m
  | .ner => r.ner s.text = .error m
  | .grammar => r.grammar s.text = .error m

/-- Builders all of whose constructions succeed, producing handles that
return empty result lists. -/
def trivialBuilders : Builders where
  text_gen := .ok fun _ _ _ => .ok []
  summarizer := .ok fun _ _ _ => .ok []
  sentiment := .ok fun _ => .ok []
  ner := .ok fun _ => .ok []
  grammar := .ok fun _ => .ok []

/-- A registry of handles that return empty result lists. -/
def trivialRegistry : Registry where
  text_gen := fun _ _ _ => .ok []
  summarizer := fun _ _ _ => .ok []
  sentiment := fun _ => .ok []
  ner := fun _ => .ok []
  grammar := fun _ => .ok []

/-- Builders whose NER construction raises. -/
def nerFailBuilders : Builders :=
  { trivialBuilders with ner := .error "model download failed" }

/-- A registry whose sentiment handle raises on every invocation. -/
def sentimentErrRegistry : Registry :=
  { trivialRegistry with sentiment := fun _ => .error "inference failed" }

/-- A registry whose sentiment handle returns a POSITIVE result with
score 0.9998. -/
def posSentRegistry : Registry :=
  { trivialRegistry with
    sentiment := fun _ => .ok [{ label := "POSITIVE", score := mkRat 9998 10000 }] }

/-- A registry whose sentiment handle returns a NEUTRAL result with
score 0.5. -/
def neutralSentRegistry : Registry :=
  { trivialRegistry with
    sentiment := fun _ => .ok [{ label := "NEUTRAL", score := mkRat 1 2 }] }

/-- The three entity records of the NER scenario. -/
def nerScenarioEntities : List NEREntity :=
  [{ word := "Elon Musk", entity_group := "PER", score := mkRat 99 100 },
   { word := "SpaceX", entity_group := "ORG", score := mkRat 95 100 },
   { word := "California", entity_group := "LOC", score := mkRat 97 100 }]

/-- A registry whose NER handle returns the scenario entities. -/
def nerScenarioRegistry : Registry :=
  { trivialRegistry with ner := fun _ => .ok nerScenarioEntities }

/-- A registry whose grammar handle returns a fixed corrected text. -/
def grammarScenarioRegistry : Registry :=
  { trivialRegistry with
    grammar := fun _ => .ok [{ generated_text := "She goes to school every day." }] }

/-- Widget state: Text Generation selected, text area cleared to the empty
string, sliders at their defaults, button pressed. -/
def emptyTextSession : Session where
  task := .textGen
  text := ""
  genMaxLen := 200
  sumMaxLen := 60
  sumMinLen := 20
  pressed := true

/-- Widget state: Sentiment Analysis selected with the text area cleared to
the empty string, button pressed. -/
def emptySentSession : Session where
  task := .sentiment
  text := ""
  genMaxLen := 200
  sumMaxLen := 60
  sumMinLen := 20
  pressed := true

/-- Widget state of the sentiment scenario: default input text, button
pressed. -/
def sentimentScenarioSession : Session where
  task := .sentiment
  text := "The food was amazing!"
  genMaxLen := 200
  sumMaxLen := 60
  sumMinLen := 20
  pressed := true

/-- Widget state of the NER scenario. -/
def nerScenarioSession : Session where
  task := .ner
  text := "Elon Musk founded SpaceX in California."
  genMaxLen := 200
  sumMaxLen := 60
  sumMinLen := 20
  pressed := true

/-- Widget state of the grammar-correction scenario. -/
def grammarScenarioSession : Session where
  task := .grammar
  text := "She go to school every days, but he not going tomorrow."
  genMaxLen := 200
  sumMaxLen := 60
  sumMinLen := 20
  pressed := true

/-- Widget state: Text Generation selected with its default prompt and
slider default, button pressed. -/
def textGenDefaultSession : Session where
  task := .textGen
  text := "The future of AI is"
  genMaxLen := 200
  sumMaxLen := 60
  sumMinLen := 20
  pressed := true

/-- A slider whose chosen position already lies inside the bounds returns it
unchanged. -/
theorem sliderVal_eq_self (lo hi v : Int) (h1 : lo ≤ v) (h2 : v ≤ hi) :
    sliderVal lo hi v = v := by
  simp [sliderVal, min_eq_right h2, max_eq_right h1]

/-- The value returned by the loader body equals `load_pipelines`. -/
theorem load_pipelines_eff_fst (b : Builders) :
    (load_pipelines_eff b).1 = load_pipelines b := by
  cases hb : build_pipelines b <;>
    simp [load_pipelines_eff, load_pipelines, hb, Except.toOption]

/-- A cache miss runs the loader body and stores its result. -/
theorem cachedLoad_miss (b : Builders) :
    cachedLoad b none =
      (load_pipelines b, some (load_pipelines b), true, (load_pipelines_eff b).2) := by
  have h := load_pipelines_eff_fst b
  rcases hle : load_pipelines_eff b with ⟨r, effs⟩
  rw [hle] at h
  simp at h
  simp [cachedLoad, hle, h]

/-- Once the cache holds a value, every further call returns it, stores it
back, and runs no construction work. -/
theorem loadResults_hit (b : Builders) (v : Option Registry) :
    ∀ n : Nat, loadResults b n (some v) = (List.replicate n v, some v, 0) := by
  intro n
  induction n with
  | zero => rfl
  | succ m ih => simp [loadResults, cachedLoad, ih, List.replicate]

/-- Claim C1: within one process, any number n ≥ 1 of calls of the cached
registry loader all return the identical mapping constructed on the first
call, and construction work runs exactly on that first call — no later call
re-runs any construction step. -/
theorem load_pipelines_memoized (b : Builders) (n : Nat) (h : 1 ≤ n) :
    loadResults b n none =
      (List.replicate n (load_pipelines b), some (load_pipelines b), 1) := by
  obtain ⟨m, rfl⟩ : ∃ m, n = m + 1 := ⟨n - 1, by omega⟩
  simp [loadResults, cachedLoad_miss, loadResults_hit, List.replicate]

/-- Witness for C1: two calls with concrete builders return the same mapping
twice and run construction once. -/
theorem load_pipelines_memoized_witness :
    loadResults trivialBuilders 2 none =
      (List.replicate 2 (load_pipelines trivialBuilders),
        some (load_pipelines trivialBuilders), 1) :=
  load_pipelines_memoized trivialBuilders 2 (by decide)

/-- If any of the five constructions raises, the loader returns `None`. -/
theorem buildFails_none (b : Builders) (h : buildFails b) :
    load_pipelines b = none := by
  rcases h with ⟨e, he⟩ | ⟨e, he⟩ | ⟨e, he⟩ | ⟨e, he⟩ | ⟨e, he⟩ <;>
    cases htg : b.text_gen <;> cases hsm : b.summarizer <;> cases hse : b.sentiment <;>
      cases hnr : b.ner <;> cases hgr : b.grammar <;>
    simp_all [load_pipelines, build_pipelines, Except.toOption]

/-- A run that finds the cached `None` renders the chrome and stops. -/
theorem runScript_dead (b : Builders) (s : Session) :
    runScript b (some none) s = ⟨chrome ++ [Eff.stopped], some none, false⟩ := rfl

/-- Once a failed construction is cached, every later run stops after the
chrome. -/
theorem runScripts_outs_dead (b : Builders) :
    ∀ ss : List Session, ∀ o ∈ (runScripts b (some none) ss).outs,
      o = chrome ++ [Eff.stopped] := by
  intro ss
  induction ss with
  | nil => intro o ho; simp [runScripts] at ho
  | cons s ss ih =>
    intro o ho
    simp only [runScripts, runScript_dead] at ho
    rcases List.mem_cons.mp ho with rfl | h2
    · rfl
    · exact ih o h2

/-- Claim C2: if constructing any one of the five handles fails, the loader
returns the failure value `None` (no partially populated mapping), and in
every script run of the process no task panel is rendered or invoked: each
run stops after the chrome, emits no panel header and performs no handle
call. -/
theorem registry_failure_disables_all (b : Builders) (hfail : buildFails b) :
    load_pipelines b = none ∧
    ∀ ss : List Session, ∀ o ∈ (runScripts b none ss).outs,
      Eff.stopped ∈ o ∧ callsOf o = [] ∧ ∀ m, Eff.header m ∉ o := by
  have hnone := buildFails_none b hfail
  refine ⟨hnone, ?_⟩
  intro ss o ho
  cases ss with
  | nil => simp [runScripts] at ho
  | cons s ss =>
    obtain ⟨e, hb⟩ : ∃ e, build_pipelines b = .error e := by
      cases hbp : build_pipelines b with
      | ok r =>
        rw [load_pipelines, hbp] at hnone
        simp [Except.toOption] at hnone
      | error e => exact ⟨e, rfl⟩
    have h1 : runScript b none s =
        ⟨[Eff.spinner "Loading NLP models... This might take a moment!",
          Eff.stError ("Error loading models: " ++ e ++
            ". Please ensure PyTorch and transformers are installed.")] ++
          chrome ++ [Eff.stopped], some none, true⟩ := by
      simp [runScript, cachedLoad, load_pipelines_eff, hb, load_pipelines]
    simp only [runScripts, h1] at ho
    rcases List.mem_cons.mp ho with rfl | h2
    · refine ⟨by simp [chrome], by simp [callsOf, chrome], ?_⟩
      intro m
      simp [chrome]
    · have hdead := runScripts_outs_dead b ss o h2
      subst hdead
      refine ⟨by simp [chrome], by simp [callsOf, chrome], ?_⟩
      intro m
      simp [chrome]

/-- Witness for C2: builders whose NER construction raises. -/
theorem registry_failure_disables_all_witness :
    load_pipelines nerFailBuilders = none ∧
    ∀ ss : List Session, ∀ o ∈ (runScripts nerFailBuilders none ss).outs,
      Eff.stopped ∈ o ∧ callsOf o = [] ∧ ∀ m, Eff.header m ∉ o :=
  registry_failure_disables_all nerFailBuilders
    (Or.inr (Or.inr (Or.inr (Or.inl ⟨"model download failed", rfl⟩))))

/-- Claim C3: for every max length M selectable on the Summarization max
slider, the min slider yields exactly the values of [10, M - 10]: every
position is clamped into that interval, every value of the interval is
selectable, and every resulting min value is strictly below M (so also for
M = 20, the smallest selectable max, no min ≥ max combination exists). -/
theorem summarization_min_slider_range (M : Int) (hM : 20 ≤ M ∧ M ≤ 200) :
    (∀ v, sliderVal 10 (M - 10) v ∈ Set.Icc (10 : Int) (M - 10)) ∧
    (∀ m ∈ Set.Icc (10 : Int) (M - 10), ∃ v, sliderVal 10 (M - 10) v = m) ∧
    (∀ v, sliderVal 10 (M - 10) v < M) := by
  obtain ⟨h1, _⟩ := hM
  refine ⟨fun v => ?_, fun m hm => ⟨m, ?_⟩, fun v => ?_⟩
  · rw [Set.mem_Icc]
    exact ⟨le_max_left _ _, max_le (by omega) (min_le_left _ _)⟩
  · rw [Set.mem_Icc] at hm
    exact sliderVal_eq_self _ _ _ hm.1 hm.2
  · have hub : sliderVal 10 (M - 10) v ≤ M - 10 :=
      max_le (by omega) (min_le_left _ _)
    omega

/-- Witness for C3 at the boundary max length M = 20 and slider position 5:
the clamped min value lies in [10, 10] and is strictly below the max. -/
theorem summarization_min_slider_range_witness :
    sliderVal 10 (20 - 10) 5 ∈ Set.Icc (10 : Int) (20 - 10) ∧
    sliderVal 10 (20 - 10) 5 < 20 :=
  ⟨(summarization_min_slider_range 20 ⟨by decide, by decide⟩).1 5,
   (summarization_min_slider_range 20 ⟨by decide, by decide⟩).2.2 5⟩

/-- When the registry is cached and the button was pressed with in-range
slider positions, the run performs exactly one handle call, with the text
and parameters as chosen. -/
theorem calls_eq_callOf (b : Builders) (r : Registry) (s : Session)
    (hp : s.pressed = true) (hin : paramsInRange s) :
    callsOf (runScript b (some (some r)) s).effs = [callOf s] := by
  have hrun : (runScript b (some (some r)) s).effs = chrome ++ panelFor r s := rfl
  rw [hrun]
  have hch : callsOf (chrome ++ panelFor r s) = callsOf (panelFor r s) := by
    simp [callsOf, chrome]
  rw [hch]
  cases ht : s.task
  case textGen =>
    simp only [paramsInRange, ht] at hin
    simp only [panelFor, ht, textGenPanel, hp, callOf, if_true]
    rw [sliderVal_eq_self _ _ _ hin.1 hin.2]
    rcases r.text_gen s.text s.genMaxLen 1 with e | res
    · simp [callsOf]
    · rcases res with _ | ⟨r0, rest⟩ <;> simp [callsOf]
  case summarization =>
    simp only [paramsInRange, ht] at hin
    simp only [panelFor, ht, summarizationPanel, hp, callOf, if_true]
    rw [sliderVal_eq_self 20 200 s.sumMaxLen hin.1 hin.2.1,
      sliderVal_eq_self 10 (s.sumMaxLen - 10) s.sumMinLen hin.2.2.1 hin.2.2.2]
    rcases r.summarizer s.text s.sumMaxLen s.sumMinLen with e | res
    · simp [callsOf]
    · rcases res with _ | ⟨s0, rest⟩ <;> simp [callsOf]
  case sentiment =>
    simp only [panelFor, ht, sentimentPanel, hp, callOf, if_true]
    rcases r.sentiment s.text with e | res
    · simp [callsOf]
    · rcases res with _ | ⟨r0, rest⟩
      · simp [callsOf]
      · by_cases hl : r0.label = "POSITIVE" <;> simp [callsOf, hl]
  case ner =>
    simp only [panelFor, ht, nerPanel, hp, callOf, if_true]
    rcases r.ner s.text with e | res <;> simp [callsOf]
  case grammar =>
    simp only [panelFor, ht, grammarPanel, hp, callOf, if_true]
    rcases r.grammar s.text with e | res
    · simp [callsOf]
    · rcases res with _ | ⟨r0, rest⟩ <;> simp [callsOf]

/-- Claim C4: for every task, input text and in-range parameter choice, a
pressed run with a ready registry invokes the corresponding handle exactly
once, with exactly the chosen text and parameters — no transformation of
either before the call. -/
theorem dispatcher_pass_through (b : Builders) (r : Registry) (s : Session)
    (hp : s.pressed = true) (hin : paramsInRange s) :
    callsOf (runScript b (some (some r)) s).effs = [callOf s] :=
  calls_eq_callOf b r s hp hin

/-- Witness for C4: a concrete Text Generation run forwards the prompt and
the chosen max length unchanged. -/
theorem dispatcher_pass_through_witness :
    callsOf (runScript trivialBuilders (some (some trivialRegistry))
        textGenDefaultSession).effs = [callOf textGenDefaultSession] :=
  dispatcher_pass_through trivialBuilders trivialRegistry textGenDefaultSession
    rfl ⟨by decide, by decide⟩

/-- The last element of a list ending in a singleton. -/
theorem getLast_append_singleton {α : Type} (l : List α) (a : α) :
    (l ++ [a]).getLast? = some a := by
  rw [List.getLast?_concat]

/-- Claim C5: with the registry ready, an exception raised by the selected
panel's handle invocation surfaces as the final (uncaught-error) element of
that run only; the cached registry is unchanged, no construction re-runs,
and any other session run against the resulting cache behaves exactly as it
would have before the failing action. -/
theorem invocation_error_isolated (b : Builders) (r : Registry) (s : Session)
    (m : Err) (hp : s.pressed = true) (he : invokeErrors r s m) :
    (runScript b (some (some r)) s).effs.getLast? = some (Eff.uncaught m) ∧
    (runScript b (some (some r)) s).cache = some (some r) ∧
    (runScript b (some (some r)) s).ran = false ∧
    ∀ s2 : Session, runScript b (runScript b (some (some r)) s).cache s2 =
      runScript b (some (some r)) s2 := by
  refine ⟨?_, rfl, rfl, fun s2 => rfl⟩
  have hrun : (runScript b (some (some r)) s).effs = chrome ++ panelFor r s := rfl
  rw [hrun]
  cases ht : s.task
  case textGen =>
    simp only [invokeErrors, ht] at he
    simp only [panelFor, ht, textGenPanel, hp, if_true, he]
    rw [show chrome ++
        ([Eff.header "📝 Text Generation (GPT-2)"] ++
          ([Eff.spinner "Generating text...",
            Eff.call (.textGen s.text (sliderVal 50 500 s.genMaxLen) 1)] ++
            [Eff.uncaught m])) =
        (chrome ++
          [Eff.header "📝 Text Generation (GPT-2)",
           Eff.spinner "Generating text...",
           Eff.call (.textGen s.text (sliderVal 50 500 s.genMaxLen) 1)]) ++
          [Eff.uncaught m] by simp]
    exact getLast_append_singleton _ _
  case summarization =>
    simp only [invokeErrors, ht] at he
    simp only [panelFor, ht, summarizationPanel, hp, if_true, he]
    rw [show chrome ++
        ([Eff.header "📑 Text Summarization (BART-Large-CNN)"] ++
          ([Eff.spinner "Summarizing...",
            Eff.call (.summarize s.text (sliderVal 20 200 s.sumMaxLen)
              (sliderVal 10 (sliderVal 20 200 s.sumMaxLen - 10) s.sumMinLen))] ++
            [Eff.uncaught m])) =
        (chrome ++
          [Eff.header "📑 Text Summarization (BART-Large-CNN)",
           Eff.spinner "Summarizing...",
           Eff.call (.summarize s.text (sliderVal 20 200 s.sumMaxLen)
             (sliderVal 10 (sliderVal 20 200 s.sumMaxLen - 10) s.sumMinLen))]) ++
          [Eff.uncaught m] by simp]
    exact getLast_append_singleton _ _
  case sentiment =>
    simp only [invokeErrors, ht] at he
    simp only [panelFor, ht, sentimentPanel, hp, if_true, he]
    rw [show chrome ++
        ([Eff.header "😊 Sentiment Analysis"] ++
          ([Eff.spinner "Analyzing sentiment...", Eff.call (.sentiment s.text)] ++
            [Eff.uncaught m])) =
        (chrome ++
          [Eff.header "😊 Sentiment Analysis",
           Eff.spinner "Analyzing sentiment...",
           Eff.call (.sentiment s.text)]) ++ [Eff.uncaught m] by simp]
    exact getLast_append_singleton _ _
  case ner =>
    simp only [invokeErrors, ht] at he
    simp only [panelFor, ht, nerPanel, hp, if_true, he]
    rw [show chrome ++
        ([Eff.header "📍 Named Entity Recognition"] ++
          ([Eff.spinner "Detecting entities...", Eff.call (.ner s.text)] ++
            [Eff.uncaught m])) =
        (chrome ++
          [Eff.header "📍 Named Entity Recognition",
           Eff.spinner "Detecting entities...",
           Eff.call (.ner s.text)]) ++ [Eff.uncaught m] by simp]
    exact getLast_append_singleton _ _
  case grammar =>
    simp only [invokeErrors, ht] at he
    simp only [panelFor, ht, grammarPanel, hp, if_true, he]
    rw [show chrome ++
        ([Eff.header "✍ Grammar Correction"] ++
          ([Eff.spinner "Fixing grammar...", Eff.call (.grammar s.text)] ++
            [Eff.uncaught m])) =
        (chrome ++
          [Eff.header "✍ Grammar Correction",
           Eff.spinner "Fixing grammar...",
           Eff.call (.grammar s.text)]) ++ [Eff.uncaught m] by simp]
    exact getLast_append_singleton _ _

/-- Witness for C5: a concrete sentiment run whose handle raises. -/
theorem invocation_error_isolated_witness :
    (runScript trivialBuilders (some (some sentimentErrRegistry))
        sentimentScenarioSession).effs.getLast? =
      some (Eff.uncaught "inference failed") ∧
    (runScript trivialBuilders (some (some sentimentErrRegistry))
        sentimentScenarioSession).cache = some (some sentimentErrRegistry) ∧
    (runScript trivialBuilders (some (some sentimentErrRegistry))
        sentimentScenarioSession).ran = false ∧
    ∀ s2 : Session,
      runScript trivialBuilders
          (runScript trivialBuilders (some (some sentimentErrRegistry))
            sentimentScenarioSession).cache s2 =
        runScript trivialBuilders (some (some sentimentErrRegistry)) s2 :=
  invocation_error_isolated trivialBuilders sentimentErrRegistry
    sentimentScenarioSession "inference failed" rfl rfl

/-- An invocation record extracted from an effect list comes from a call
effect in that list. -/
theorem call_mem_of_callsOf (l : List Eff) (c : CallRec) (h : c ∈ callsOf l) :
    Eff.call c ∈ l := by
  induction l with
  | nil => simp [callsOf] at h
  | cons a l ih =>
    cases a <;> simp [callsOf] at h ⊢
    case call c2 =>
      rcases h with rfl | h
      · exact Or.inl rfl
      · exact Or.inr (by simpa [callsOf] using ih (by simpa [callsOf] using h))
    all_goals simpa [callsOf] using ih (by simpa [callsOf] using h)

/-- Counterexample to claim C6 as stated: a pressed Text Generation run with
the text area cleared to the empty string forwards that empty text to the
registry handle — the run performs exactly the call with empty text. -/
theorem empty_text_is_forwarded :
    callsOf (runScript trivialBuilders (some (some trivialRegistry))
        emptyTextSession).effs = [CallRec.textGen "" 200 1] := by decide

/-- Claim C6 as amended: panels perform no emptiness check; whenever the
button is pressed with a ready registry, the input text — the empty string
included — is forwarded unchanged to the registry handle.  (The default
widget values are non-empty sample texts, but nothing prevents an empty
submission.) -/
theorem panels_forward_empty_text (b : Builders) (r : Registry) (s : Session)
    (hp : s.pressed = true) (_ht : s.text = "") (hin : paramsInRange s) :
    Eff.call (callOf s) ∈ (runScript b (some (some r)) s).effs := by
  apply call_mem_of_callsOf
  rw [calls_eq_callOf b r s hp hin]
  exact List.mem_singleton.mpr rfl

/-- Witness for the amended C6: a concrete empty-text sentiment run. -/
theorem panels_forward_empty_text_witness :
    Eff.call (callOf emptySentSession) ∈
      (runScript trivialBuilders (some (some trivialRegistry))
        emptySentSession).effs :=
  panels_forward_empty_text trivialBuilders trivialRegistry emptySentSession
    rfl rfl trivial

/-- Claim C7: on input "The food was amazing!" with the sentiment handle
returning label POSITIVE and score 0.9998, the run renders the
positive-styled (success) banner whose displayed confidence is the score
formatted to exactly four decimal places, "0.9998". -/
theorem sentiment_positive_scenario :
    (runScript trivialBuilders (some (some posSentRegistry))
        sentimentScenarioSession).effs =
      chrome ++
        [Eff.header "😊 Sentiment Analysis",
         Eff.spinner "Analyzing sentiment...",
         Eff.call (CallRec.sentiment "The food was amazing!"),
         Eff.subheader "Result:",
         Eff.stSuccess "POSITIVE (Confidence: 0.9998)"] := by decide

/-- Claim C8: whenever the NER handle returns a list of entity records, the
run renders a table whose rows are exactly that list mapped in order to
(Entity = word, Label = entity_group, Score = score formatted to four
decimal places) — in particular one row per entity record. -/
theorem ner_renders_one_row_per_entity (b : Builders) (r : Registry)
    (s : Session) (es : List NEREntity) (hp : s.pressed = true)
    (ht : s.task = TaskId.ner) (he : r.ner s.text = .ok es) :
    (runScript b (some (some r)) s).effs =
      chrome ++
        [Eff.header "📍 Named Entity Recognition",
         Eff.spinner "Detecting entities...",
         Eff.call (CallRec.ner s.text),
         Eff.stSuccess "Entities Identified:",
         Eff.dataframe (es.map fun ent =>
           { entity := ent.word, label := ent.entity_group,
             score := format4 ent.score })] ∧
    (es.map fun ent =>
      ({ entity := ent.word, label := ent.entity_group,
         score := format4 ent.score } : NERRow)).length = es.length := by
  constructor
  · have hrun : (runScript b (some (some r)) s).effs = chrome ++ panelFor r s := rfl
    rw [hrun]
    simp [panelFor, ht, nerPanel, hp, he]
  · exact List.length_map es _

/-- Witness for C8: the three-entity NER scenario renders a three-row table
with the scores formatted to four decimals. -/
theorem ner_renders_one_row_per_entity_witness :
    (runScript trivialBuilders (some (some nerScenarioRegistry))
        nerScenarioSession).effs =
      chrome ++
        [Eff.header "📍 Named Entity Recognition",
         Eff.spinner "Detecting entities...",
         Eff.call (CallRec.ner "Elon Musk founded SpaceX in California."),
         Eff.stSuccess "Entities Identified:",
         Eff.dataframe (nerScenarioEntities.map fun ent =>
           { entity := ent.word, label := ent.entity_group,
             score := format4 ent.score })] ∧
    (nerScenarioEntities.map fun ent =>
      ({ entity := ent.word, label := ent.entity_group,
         score := format4 ent.score } : NERRow)).length =
      nerScenarioEntities.length :=
  ner_renders_one_row_per_entity trivialBuilders nerScenarioRegistry
    nerScenarioSession nerScenarioEntities rfl rfl rfl

/-- Claim C9: whenever the grammar handle returns a first result with
corrected text X, the run displays both the original input verbatim and X;
the displayed original line carries the input text unchanged. -/
theorem grammar_displays_original_verbatim (b : Builders) (r : Registry)
    (s : Session) (X : String) (rest : List GenOut) (hp : s.pressed = true)
    (ht : s.task = TaskId.grammar)
    (he : r.grammar s.text = .ok ({ generated_text := X } :: rest)) :
    (runScript b (some (some r)) s).effs =
      chrome ++
        [Eff.header "✍ Grammar Correction",
         Eff.spinner "Fixing grammar...",
         Eff.call (CallRec.grammar s.text),
         Eff.stSuccess "Correction Complete!",
         Eff.markdown ("**Original:** " ++ s.text),
         Eff.markdown ("**Corrected:** " ++ X)] := by
  have hrun : (runScript b (some (some r)) s).effs = chrome ++ panelFor r s := rfl
  rw [hrun]
  simp [panelFor, ht, grammarPanel, hp, he]

/-- Witness for C9: the grammar scenario run shows the incorrect input
unchanged next to the returned correction. -/
theorem grammar_displays_original_verbatim_witness :
    (runScript trivialBuilders (some (some grammarScenarioRegistry))
        grammarScenarioSession).effs =
      chrome ++
        [Eff.header "✍ Grammar Correction",
         Eff.spinner "Fixing grammar...",
         Eff.call (CallRec.grammar
           "She go to school every days, but he not going tomorrow."),
         Eff.stSuccess "Correction Complete!",
         Eff.markdown ("**Original:** " ++
           "She go to school every days, but he not going tomorrow."),
         Eff.markdown ("**Corrected:** " ++ "She goes to school every day.")] :=
  grammar_displays_original_verbatim trivialBuilders grammarScenarioRegistry
    grammarScenarioSession "She goes to school every day." [] rfl rfl rfl

/-- Claim C10: every sentiment result whose label differs from the exact
string POSITIVE — NEUTRAL included — is rendered as the negative-styled
(error) banner displaying the text NEGATIVE together with that result's
formatted score, whatever the label was. -/
theorem sentiment_nonpositive_renders_negative (b : Builders) (r : Registry)
    (s : Session) (lab : String) (sc : ℚ) (rest : List SentOut)
    (hp : s.pressed = true) (ht : s.task = TaskId.sentiment)
    (he : r.sentiment s.text = .ok ({ label := lab, score := sc } :: rest))
    (hl : lab ≠ "POSITIVE") :
    (runScript b (some (some r)) s).effs =
      chrome ++
        [Eff.header "😊 Sentiment Analysis",
         Eff.spinner "Analyzing sentiment...",
         Eff.call (CallRec.sentiment s.text),
         Eff.subheader "Result:",
         Eff.stError ("NEGATIVE (Confidence: " ++ format4 sc ++ ")")] := by
  have hrun : (runScript b (some (some r)) s).effs = chrome ++ panelFor r s := rfl
  rw [hrun]
  simp [panelFor, ht, sentimentPanel, hp, he, hl]

/-- Witness for C10: a NEUTRAL result with score 0.5 renders the error
banner with the text NEGATIVE and the formatted score. -/
theorem sentiment_nonpositive_renders_negative_witness :
    (runScript trivialBuilders (some (some neutralSentRegistry))
        sentimentScenarioSession).effs =
      chrome ++
        [Eff.header "😊 Sentiment Analysis",
         Eff.spinner "Analyzing sentiment...",
         Eff.call (CallRec.sentiment "The food was amazing!"),
         Eff.subheader "Result:",
         Eff.stError ("NEGATIVE (Confidence: " ++ format4 (mkRat 1 2) ++ ")")] :=
  sentiment_nonpositive_renders_negative trivialBuilders neutralSentRegistry
    sentimentScenarioSession "NEUTRAL" (mkRat 1 2) [] rfl rfl rfl (by decide)
